import Mathlib

/-!
Verification of the libbitcoin message inventory_vector codec
(src/src/message/inventory_vector.cpp): the (type, hash) pair, its
36-byte wire encoding, the type-tag mapping, validity and
classification helpers.

Bytes are modelled as natural numbers; a hash_digest is a list of 32
bytes; machine uint32 arithmetic is explicit modulo 4294967296.
-/

namespace LibbitcoinMessage

/-- The inventory type enumeration of the source, enum class type_id:
error, transaction, block, filtered_block, compact_block, none
(none is the fallback for unrecognized wire values). -/
inductive type_id where
  | error
  | transaction
  | block
  | filtered_block
  | compact_block
  | none
deriving DecidableEq, Repr

/-- hash_digest is a 32-byte array in the source; here a list of bytes
whose length-32 invariant is carried as a hypothesis where needed. -/
abbrev hash_digest := List Nat

/-- null_hash: the all-zero 32-byte digest. -/
def null_hash : hash_digest := List.replicate 32 0

/-- The inventory_vector value: a type tag and a 32-byte hash. -/
structure inventory_vector where
  type_ : type_id
  hash_ : hash_digest
deriving DecidableEq, Repr

/-- The default-constructed inventory_vector: (error, null_hash),
from the source constructor inventory_vector(). -/
def default_item : inventory_vector :=
  { type_ := type_id.error, hash_ := null_hash }

/-- inventory_vector::to_number: map a type_id to its wire code.
compact_block to 4, block to 2, transaction to 1, everything else
(error, none, filtered_block via the default arm) to 0. -/
def to_number (inventory_type : type_id) : Nat :=
  match inventory_type with
  | type_id.compact_block => 4
  | type_id.block => 2
  | type_id.transaction => 1
  | _ => 0

/-- inventory_vector::to_type: map a uint32 wire value to a type_id.
0 to error, 1 to transaction, 2 to block, 4 to compact_block, any
other value to none. -/
def to_type (value : Nat) : type_id :=
  if value = 0 then type_id.error
  else if value = 1 then type_id.transaction
  else if value = 2 then type_id.block
  else if value = 4 then type_id.compact_block
  else type_id.none

/-- inventory_vector::is_valid:
(type_ != type_id::error) || (hash_ != null_hash). -/
def is_valid (item : inventory_vector) : Bool :=
  (!decide (item.type_ = type_id.error)) || (!decide (item.hash_ = null_hash))

/-- inventory_vector::reset: set type_ to error and zero the hash,
i.e. return the default value. -/
def reset : inventory_vector := default_item

/-- inventory_vector::is_block_type:
type is block, compact_block or filtered_block. -/
def is_block_type (item : inventory_vector) : Bool :=
  decide (item.type_ = type_id.block) ||
  decide (item.type_ = type_id.compact_block) ||
  decide (item.type_ = type_id.filtered_block)

/-- inventory_vector::is_transaction_type: type is transaction. -/
def is_transaction_type (item : inventory_vector) : Bool :=
  decide (item.type_ = type_id.transaction)

/-- inventory_vector::operator==: hashes equal and types equal. -/
def eq_op (a b : inventory_vector) : Bool :=
  decide (a.hash_ = b.hash_) && decide (a.type_ = b.type_)

/-- inventory_vector::operator!=: negation of operator==. -/
def ne_op (a b : inventory_vector) : Bool :=
  !(eq_op a b)

/-- Value of a little-endian byte list (each entry taken mod 256). -/
def fromLE : List Nat → Nat
  | [] => 0
  | b :: rest => b % 256 + 256 * fromLE rest

/-- The 4 little-endian bytes of a uint32 value. -/
def toLE4 (n : Nat) : List Nat :=
  [n % 256, n / 256 % 256, n / 65536 % 256, n / 16777216 % 256]

/-- Modelled from the spec: the byte-source reader abstraction
(istream_reader and container_source are declared outside this
translation unit). A reader holds the remaining bytes and a failure
flag; a read that cannot be fully supplied puts the reader in the
failed state, and a failed reader stays failed. -/
structure reader where
  data : List Nat
  failed : Bool
deriving Repr

/-- Modelled from the spec: read n bytes from the source, consuming
them; the read fails (failed state becomes true) when the source is
already failed or holds fewer than n bytes. -/
def reader.readBytes (r : reader) (n : Nat) : List Nat × reader :=
  (r.data.take n,
   { data := r.data.drop n,
     failed := r.failed || decide (r.data.length < n) })

/-- reader::read_4_bytes_little_endian: read 4 bytes, little-endian. -/
def reader.read4LE (r : reader) : Nat × reader :=
  let p := r.readBytes 4
  (fromLE p.1, p.2)

/-- reader::read_hash: read 32 raw bytes. -/
def reader.read_hash (r : reader) : List Nat × reader :=
  r.readBytes 32

/-- inventory_vector::from_data(version, reader&): reset, read the
4-byte little-endian type code and map it with to_type, read the
32-byte hash, then check the source state; on failure reset back to
the default value and report false, otherwise report true together
with the decoded item. -/
def from_data_reader (version : Nat) (source : reader) :
    inventory_vector × Bool :=
  let p1 := source.read4LE
  let p2 := p1.2.read_hash
  if p2.2.failed = true then
    (default_item, false)
  else
    ({ type_ := to_type p1.1, hash_ := p2.1 }, true)

/-- inventory_vector::from_data(version, const data_chunk&): decode
from a byte buffer via a fresh source over it. -/
def from_data (version : Nat) (data : List Nat) :
    inventory_vector × Bool :=
  from_data_reader version { data := data, failed := false }

/-- writer::write_4_bytes_little_endian: append the 4 little-endian
bytes of a uint32 value to the sink. -/
def write_4_bytes_little_endian (sink : List Nat) (value : Nat) :
    List Nat :=
  sink ++ toLE4 (value % 4294967296)

/-- writer::write_hash: append the 32 raw hash bytes to the sink. -/
def write_hash (sink : List Nat) (h : List Nat) : List Nat :=
  sink ++ h

/-- inventory_vector::to_data(version, writer&): write the wire code
of the type (via to_number) as 4 little-endian bytes, then the hash
bytes verbatim. -/
def to_data_writer (version : Nat) (item : inventory_vector)
    (sink : List Nat) : List Nat :=
  write_hash (write_4_bytes_little_endian sink (to_number item.type_))
    item.hash_

/-- inventory_vector::to_data(version): encode into a fresh buffer. -/
def to_data (version : Nat) (item : inventory_vector) : List Nat :=
  to_data_writer version item []

/-- inventory_vector::satoshi_fixed_size: sizeof(hash_) +
sizeof(uint32_t) = 32 + 4. -/
def satoshi_fixed_size (version : Nat) : Nat :=
  32 + 4

/-- inventory_vector::serialized_size: delegates to
satoshi_fixed_size. -/
def serialized_size (version : Nat) (item : inventory_vector) : Nat :=
  satoshi_fixed_size version

/-- inventory_vector::factory_from_data: default-construct, run
from_data on it, return the instance (the success flag is dropped). -/
def factory_from_data (version : Nat) (data : List Nat) :
    inventory_vector :=
  (from_data version data).1

/-! Helper lemmas. -/

/-- The little-endian value of the 4 serialized bytes of n is n mod 2^32. -/
theorem fromLE_toLE4 (n : Nat) : fromLE (toLE4 n) = n % 4294967296 := by
  simp only [toLE4, fromLE]
  omega

/-- to_number always produces a value below 2^32. -/
theorem to_number_lt (t : type_id) : to_number t < 4294967296 := by
  cases t <;> decide

/-- Encoding a (type, hash) item yields the 4 little-endian tag bytes
followed by the hash bytes. -/
theorem to_data_eq (v : Nat) (item : inventory_vector) :
    to_data v item = toLE4 (to_number item.type_) ++ item.hash_ := by
  simp only [to_data, to_data_writer, write_hash,
    write_4_bytes_little_endian, List.nil_append,
    Nat.mod_eq_of_lt (to_number_lt item.type_)]

/-- Decoding a well-formed 36-byte buffer (4 tag bytes then a 32-byte
hash) succeeds and yields the mapped type and the hash verbatim. -/
theorem from_data_wellformed (v n : Nat) (h : List Nat)
    (hh : h.length = 32) :
    from_data v (toLE4 n ++ h) =
      ({ type_ := to_type (n % 4294967296), hash_ := h }, true) := by
  have hlen : (toLE4 n ++ h).length = 36 := by
    simp [toLE4, hh]
  have htake : (toLE4 n ++ h).take 4 = toLE4 n := by
    simp [toLE4]
  have hdrop : (toLE4 n ++ h).drop 4 = h := by
    simp [toLE4]
  have htake32 : h.take 32 = h := by
    rw [← hh]; exact List.take_length h
  simp [from_data, from_data_reader, reader.read4LE, reader.read_hash,
    reader.readBytes, hlen, htake, hdrop, hh, htake32, fromLE_toLE4]

/-- Decoding from a source that cannot supply 36 bytes (too short, or
already failed) fails and returns the default item. -/
theorem from_data_reader_short (v : Nat) (r : reader)
    (hr : r.failed = true ∨ r.data.length < 36) :
    from_data_reader v r = (default_item, false) := by
  simp only [from_data_reader, reader.read4LE, reader.read_hash,
    reader.readBytes, List.length_drop, Bool.or_eq_true,
    decide_eq_true_eq]
  rw [if_pos]
  rcases hr with hf | hl
  · left; left; exact hf
  · by_cases h4 : r.data.length < 4
    · left; right; exact h4
    · right; omega

/-! Claim theorems. -/

/-- C1: for every item whose type has a defined wire code (error,
transaction, block, compact_block) and every 32-byte hash, decoding
the 36-byte encoding of the item succeeds and yields an item equal
to the original, both structurally and via the equality operator. -/
theorem claim_C1_roundtrip (v : Nat) (t : type_id) (h : hash_digest)
    (hh : h.length = 32)
    (ht : t = type_id.error ∨ t = type_id.transaction ∨
          t = type_id.block ∨ t = type_id.compact_block) :
    from_data v (to_data v { type_ := t, hash_ := h }) =
      ({ type_ := t, hash_ := h }, true) ∧
    eq_op (from_data v (to_data v { type_ := t, hash_ := h })).1
      { type_ := t, hash_ := h } = true := by
  have hm : to_number t % 4294967296 = to_number t :=
    Nat.mod_eq_of_lt (to_number_lt t)
  have hrt : to_type (to_number t) = t := by
    rcases ht with h1 | h1 | h1 | h1 <;> subst h1 <;> rfl
  have hdec : from_data v (to_data v { type_ := t, hash_ := h }) =
      ({ type_ := t, hash_ := h }, true) := by
    rw [to_data_eq, from_data_wellformed v (to_number t) h hh, hm, hrt]
  exact ⟨hdec, by rw [hdec]; simp [eq_op]⟩

/-- C1 witness: the round-trip at a concrete input, the transaction
type with a hash of thirty-two 0x11 bytes. -/
theorem claim_C1_roundtrip_witness :
    from_data 0 (to_data 0
      { type_ := type_id.transaction, hash_ := List.replicate 32 17 }) =
      ({ type_ := type_id.transaction,
         hash_ := List.replicate 32 17 }, true) ∧
    eq_op (from_data 0 (to_data 0
      { type_ := type_id.transaction,
        hash_ := List.replicate 32 17 })).1
      { type_ := type_id.transaction, hash_ := List.replicate 32 17 } =
      true :=
  claim_C1_roundtrip 0 type_id.transaction (List.replicate 32 17)
    (by decide) (Or.inr (Or.inl rfl))

/-- C2: decoding is total over the wire-code space: to_type maps 0 to
error, 1 to transaction, 2 to block, 4 to compact_block and every
other uint32 value to none (unrecognized), and decoding a full
36-byte buffer with any tag value succeeds, reading the 32 hash
bytes. -/
theorem claim_C2_decode_total (v n : Nat) (h : hash_digest)
    (hn : n < 4294967296) (hh : h.length = 32) :
    to_type 0 = type_id.error ∧
    to_type 1 = type_id.transaction ∧
    to_type 2 = type_id.block ∧
    to_type 4 = type_id.compact_block ∧
    (n ≠ 0 → n ≠ 1 → n ≠ 2 → n ≠ 4 → to_type n = type_id.none) ∧
    from_data v (toLE4 n ++ h) =
      ({ type_ := to_type n, hash_ := h }, true) := by
    rw [from_data_wellformed v n h hh, Nat.mod_eq_of_lt hn]
    refine ⟨rfl, rfl, rfl, rfl, fun h0 h1 h2 h4 => ?_, rfl⟩
    simp [to_type, h0, h1, h2, h4]

/-- C2 witness: concrete instance at tag value 3 (an unrecognized
code) with the all-zero hash. -/
theorem claim_C2_decode_total_witness :
    to_type 0 = type_id.error ∧
    to_type 1 = type_id.transaction ∧
    to_type 2 = type_id.block ∧
    to_type 4 = type_id.compact_block ∧
    ((3 : Nat) ≠ 0 → (3 : Nat) ≠ 1 → (3 : Nat) ≠ 2 → (3 : Nat) ≠ 4 →
      to_type 3 = type_id.none) ∧
    from_data 0 (toLE4 3 ++ List.replicate 32 0) =
      ({ type_ := to_type 3, hash_ := List.replicate 32 0 }, true) :=
  claim_C2_decode_total 0 3 (List.replicate 32 0) (by decide) (by decide)

/-- C3: decoding from a buffer shorter than 36 bytes, or from any
source that cannot supply all required bytes (already failed, or
fewer than 36 bytes remaining), returns false and leaves the item
equal to the default value (error type, all-zero 32-byte hash); no
partial-success state exists. -/
theorem claim_C3_truncation (v : Nat) (data : List Nat) (r : reader)
    (hlen : data.length < 36)
    (hr : r.failed = true ∨ r.data.length < 36) :
    from_data v data = (default_item, false) ∧
    from_data_reader v r = (default_item, false) ∧
    (from_data v data).1.type_ = type_id.error ∧
    (from_data v data).1.hash_ = List.replicate 32 0 := by
  have h1 : from_data v data = (default_item, false) :=
    from_data_reader_short v { data := data, failed := false }
      (Or.inr hlen)
  exact ⟨h1, from_data_reader_short v r hr,
    by rw [h1]; rfl, by rw [h1]; rfl⟩

/-- C3 witness: decoding a concrete 35-byte buffer (one byte short)
and a concrete already-failed source both yield the default item. -/
theorem claim_C3_truncation_witness :
    from_data 0 (List.replicate 35 17) = (default_item, false) ∧
    from_data_reader 0 { data := [], failed := true } =
      (default_item, false) ∧
    (from_data 0 (List.replicate 35 17)).1.type_ = type_id.error ∧
    (from_data 0 (List.replicate 35 17)).1.hash_ =
      List.replicate 32 0 :=
  claim_C3_truncation 0 (List.replicate 35 17)
    { data := [], failed := true } (by decide) (Or.inl rfl)

/-- C4: the encoding direction of the type mapping sends transaction
to 1, block to 2, compact_block to 4, and every other type (error,
filtered_block, none) to 0; enumerating all six constructors makes
the totality explicit. -/
theorem claim_C4_encode_mapping :
    to_number type_id.transaction = 1 ∧
    to_number type_id.block = 2 ∧
    to_number type_id.compact_block = 4 ∧
    to_number type_id.error = 0 ∧
    to_number type_id.filtered_block = 0 ∧
    to_number type_id.none = 0 := by
  decide

/-- C5: for every type and 32-byte hash, encoding produces exactly 36
bytes, namely the 4 little-endian tag bytes followed by the hash
verbatim, and the fixed-size query returns the constant 36 whatever
the version argument. -/
theorem claim_C5_fixed_size (v : Nat) (item : inventory_vector)
    (hh : item.hash_.length = 32) :
    (to_data v item).length = 36 ∧
    to_data v item = toLE4 (to_number item.type_) ++ item.hash_ ∧
    satoshi_fixed_size v = 36 ∧
    serialized_size v item = 36 := by
  refine ⟨?_, to_data_eq v item, rfl, rfl⟩
  rw [to_data_eq v item]
  simp [toLE4, hh]

/-- C5 witness: concrete instance at the default item with version 7. -/
theorem claim_C5_fixed_size_witness :
    (to_data 7 default_item).length = 36 ∧
    to_data 7 default_item =
      toLE4 (to_number default_item.type_) ++ default_item.hash_ ∧
    satoshi_fixed_size 7 = 36 ∧
    serialized_size 7 default_item = 36 :=
  claim_C5_fixed_size 7 default_item (by decide)

/-- C6: is_valid is true exactly when the type is not error or the
hash is not all-zero; the default combination is invalid while
(error, non-zero hash) and (transaction, zero hash) are valid. -/
theorem claim_C6_validity (item : inventory_vector) :
    (is_valid item = true ↔
      (item.type_ ≠ type_id.error ∨ item.hash_ ≠ null_hash)) ∧
    is_valid default_item = false ∧
    is_valid { type_ := type_id.error,
               hash_ := 1 :: List.replicate 31 0 } = true ∧
    is_valid { type_ := type_id.transaction, hash_ := null_hash } =
      true := by
  refine ⟨?_, by decide, by decide, by decide⟩
  simp [is_valid]

/-- C7: every entry point ignores the protocol-version argument: for
any two versions the encoded bytes, the decode results on the same
input, and the reported sizes coincide. -/
theorem claim_C7_version_independent (v1 v2 : Nat)
    (item : inventory_vector) (data : List Nat) (r : reader) :
    to_data v1 item = to_data v2 item ∧
    from_data v1 data = from_data v2 data ∧
    from_data_reader v1 r = from_data_reader v2 r ∧
    factory_from_data v1 data = factory_from_data v2 data ∧
    serialized_size v1 item = serialized_size v2 item ∧
    satoshi_fixed_size v1 = satoshi_fixed_size v2 :=
  ⟨rfl, rfl, rfl, rfl, rfl, rfl⟩

/-- C8: unrecognized wire codes are not preserved: decoding a
well-formed 36-byte buffer whose tag n is outside the set 0, 1, 2, 4
succeeds, but re-encoding the decoded item writes tag bytes for 0,
which differ from the original tag bytes. -/
theorem claim_C8_unrecognized_not_preserved (v n : Nat)
    (h : hash_digest) (hn : n < 4294967296) (hh : h.length = 32)
    (h0 : n ≠ 0) (h1 : n ≠ 1) (h2 : n ≠ 2) (h4 : n ≠ 4) :
    (from_data v (toLE4 n ++ h)).2 = true ∧
    to_data v (from_data v (toLE4 n ++ h)).1 = toLE4 0 ++ h ∧
    toLE4 0 ≠ toLE4 n := by
  have hdec := from_data_wellformed v n h hh
  rw [Nat.mod_eq_of_lt hn] at hdec
  have htt : to_type n = type_id.none := by
    simp [to_type, h0, h1, h2, h4]
  refine ⟨by rw [hdec], ?_, ?_⟩
  · rw [hdec, to_data_eq]
    simp [htt, to_number]
  · intro heq
    have := congrArg fromLE heq
    rw [fromLE_toLE4, fromLE_toLE4, Nat.mod_eq_of_lt hn] at this
    exact h0 this.symm

/-- C8 witness: concrete instance at tag value 3 with a hash of
thirty-two 0xAB bytes. -/
theorem claim_C8_unrecognized_not_preserved_witness :
    (from_data 0 (toLE4 3 ++ List.replicate 32 171)).2 = true ∧
    to_data 0 (from_data 0 (toLE4 3 ++ List.replicate 32 171)).1 =
      toLE4 0 ++ List.replicate 32 171 ∧
    toLE4 0 ≠ toLE4 3 :=
  claim_C8_unrecognized_not_preserved 0 3 (List.replicate 32 171)
    (by decide) (by decide) (by decide) (by decide) (by decide)
    (by decide)

/-- C9: is_block_type holds exactly for block, compact_block and
filtered_block, and is_transaction_type exactly for transaction,
over every hash and every type constructor. -/
theorem claim_C9_classification (h : hash_digest)
    (item : inventory_vector) :
    (is_block_type item = true ↔
      (item.type_ = type_id.block ∨
       item.type_ = type_id.compact_block ∨
       item.type_ = type_id.filtered_block)) ∧
    (is_transaction_type item = true ↔
      item.type_ = type_id.transaction) ∧
    is_block_type { type_ := type_id.block, hash_ := h } = true ∧
    is_block_type { type_ := type_id.compact_block, hash_ := h } =
      true ∧
    is_block_type { type_ := type_id.filtered_block, hash_ := h } =
      true ∧
    is_block_type { type_ := type_id.error, hash_ := h } = false ∧
    is_block_type { type_ := type_id.transaction, hash_ := h } =
      false ∧
    is_block_type { type_ := type_id.none, hash_ := h } = false ∧
    is_transaction_type { type_ := type_id.transaction, hash_ := h } =
      true ∧
    is_transaction_type { type_ := type_id.block, hash_ := h } =
      false := by
  refine ⟨?_, ?_, ?_, ?_, ?_, ?_, ?_, ?_, ?_, ?_⟩ <;>
    simp [is_block_type, is_transaction_type, or_assoc]

/-- C10: for every version and every input shorter than 36 bytes, the
factory decode entry point returns an item equal to the
default-constructed item, and that item fails is_valid, so the
failed decode is detectable from the value alone. -/
theorem claim_C10_factory_default (v : Nat) (data : List Nat)
    (hlen : data.length < 36) :
    factory_from_data v data = default_item ∧
    is_valid (factory_from_data v data) = false := by
  have h1 : from_data v data = (default_item, false) :=
    from_data_reader_short v { data := data, failed := false }
      (Or.inr hlen)
  have h2 : factory_from_data v data = default_item := by
    rw [factory_from_data, h1]
  exact ⟨h2, by rw [h2]; decide⟩

/-- C10 witness: the factory at a concrete empty buffer. -/
theorem claim_C10_factory_default_witness :
    factory_from_data 0 [] = default_item ∧
    is_valid (factory_from_data 0 []) = false :=
  claim_C10_factory_default 0 [] (by decide)

end LibbitcoinMessage
